import Mathlib

/-!
Verification development for the disclosure-widget subsystem of `acore-ts`
(`src/ui/components/Accordion.ts`, `AccordionGroup.ts`, `Dropdown.ts`,
`Tab.ts`, `TabGroup.ts`, `TabTrigger.ts`): exclusivity coordination,
overlay placement geometry and keyboard navigation.
-/

namespace AcoreTs

/-- A DOMRect-like rectangle in viewport coordinates, as consumed by
`Dropdown.updatePosition` (`getBoundingClientRect` snapshot). -/
structure Rect where
  x : ℚ
  y : ℚ
  width : ℚ
  height : ℚ

/-- The triple of style values `Dropdown.updatePosition` writes back:
`style.top`, `style.left`, `style.maxWidth`. -/
structure Placement where
  top : ℚ
  left : ℚ
  maxWidth : ℚ

namespace Dropdown

/-- Shallow embedding of `Dropdown.updatePosition` (identical in
`src/ui/components/Dropdown.ts` and `src/unnamed/part_005`):
center the content under the trigger, place it below with an 8px gap,
resolve horizontal overflow against the viewport width, clamp left at 8,
flip above the trigger on vertical overflow when there is room
(`topPosition > 0`), otherwise pin to the bottom margin, and always cap
`maxWidth` at `viewportWidth - 16`. -/
def updatePosition (triggerRect contentRect : Rect)
    (viewportWidth viewportHeight : ℚ) : Placement :=
  let left := triggerRect.x + (triggerRect.width - contentRect.width) / 2
  let top := triggerRect.y + triggerRect.height + 8
  let left1 := if left + contentRect.width > viewportWidth
    then viewportWidth - contentRect.width - 8 else left
  let left2 := if left1 < 8 then (8 : ℚ) else left1
  let top1 :=
    if top + contentRect.height > viewportHeight then
      let topPosition := triggerRect.y - contentRect.height - 8
      if topPosition > 0 then topPosition
      else viewportHeight - contentRect.height - 8
    else top
  ⟨top1, left2, viewportWidth - 16⟩

/-- The horizontal placement rule exactly as the spec words it: the
overflow test compares `left + content.width` against
`viewport.width - margin` (margin = 8). -/
def specLeftMarginTest (anchor content : Rect) (vw : ℚ) : ℚ :=
  let l0 := anchor.x + (anchor.width - content.width) / 2
  let l1 := if l0 + content.width > vw - 8 then vw - content.width - 8 else l0
  if l1 < 8 then 8 else l1

/-- The horizontal placement rule with the overflow test the code actually
performs: `left + content.width` compared against `viewport.width` itself. -/
def specLeftCodeTest (anchor content : Rect) (vw : ℚ) : ℚ :=
  let l0 := anchor.x + (anchor.width - content.width) / 2
  let l1 := if l0 + content.width > vw then vw - content.width - 8 else l0
  if l1 < 8 then 8 else l1

/-- The vertical placement rule exactly as the spec words it: below-anchor
candidate `anchor.bottom + margin`, overflow test against
`viewport.height - margin`, flip above when `aboveTop > 0`, else pin to
`viewport.height - content.height - margin`. -/
def specTopMarginTest (anchor content : Rect) (vh : ℚ) : ℚ :=
  let t0 := anchor.y + anchor.height + 8
  if t0 + content.height > vh - 8 then
    let aboveTop := anchor.y - content.height - 8
    if aboveTop > 0 then aboveTop else vh - content.height - 8
  else t0

/-- The vertical placement rule with the overflow test the code actually
performs: against `viewport.height` itself. -/
def specTopCodeTest (anchor content : Rect) (vh : ℚ) : ℚ :=
  let t0 := anchor.y + anchor.height + 8
  if t0 + content.height > vh then
    let aboveTop := anchor.y - content.height - 8
    if aboveTop > 0 then aboveTop else vh - content.height - 8
  else t0

/-- Observable side effects of the keyboard/close paths of the
keyboard-complete `Dropdown` variant (`src/unnamed/part_005`). -/
inductive Effect where
  | hideContent
  | focusTrigger
  | focusItem (i : Int)
deriving DecidableEq

/-- `Dropdown.hideMenu` of the keyboard-complete variant: adds the
`hidden` class to the content and unconditionally focuses the trigger. -/
def hideMenu : List Effect := [Effect.hideContent, Effect.focusTrigger]

/-- Keys the dropdown content keydown handler distinguishes. -/
inductive Key where
  | arrowDown
  | arrowUp
  | escape
  | tab
  | other
deriving DecidableEq

/-- `Dropdown.handleContentKeydown`: `items` is the number of
`role="menuitem"` elements, `currentIndex` the position of
`document.activeElement` among them (`-1` when absent, as
`Array.indexOf` returns). ArrowDown/ArrowUp clamp at the ends;
Escape hides the menu and focuses the trigger again; Tab hides the menu. -/
def handleContentKeydown (key : Key) (items : Nat) (currentIndex : Int) :
    List Effect :=
  match key with
  | .arrowDown =>
      if currentIndex < (items : Int) - 1 then [Effect.focusItem (currentIndex + 1)]
      else []
  | .arrowUp =>
      if currentIndex > 0 then [Effect.focusItem (currentIndex - 1)]
      else []
  | .escape => hideMenu ++ [Effect.focusTrigger]
  | .tab => hideMenu
  | .other => []

/-- `Dropdown.handleDocumentClick`: if the click's composed path does not
include the widget, hide the menu (which also focuses the trigger). -/
def handleDocumentClick (pathIncludesWidget : Bool) : List Effect :=
  if !pathIncludesWidget then hideMenu else []

end Dropdown

/-! ### Accordion and AccordionGroup
State of one `ac-accordion-group` with its child accordions, indexed by
position: each child's `isExpanded` flag, and the group's
`currentOpenAccordion` field (as an index, `none` for `null`). -/

structure AccGroupState where
  isExpanded : List Bool
  currentOpenAccordion : Option Nat
deriving DecidableEq

/-- Notifications observable while one user operation runs to completion:
the `accordion-expanded` custom event reaching the group, and the group
calling `collapse()` on the previously recorded open sibling. -/
inductive AccEvent where
  | accordionExpanded (i : Nat)
  | collapseCalled (j : Nat)
deriving DecidableEq

namespace Accordion

/-- State change of `Accordion.collapse()` on child `j` (the group's
`currentOpenAccordion.collapse()` call): if expanded, runs the collapse
branch of `toggleAccordion` (clears the flag, fires no event). -/
def collapseChild (j : Nat) (s : AccGroupState) : AccGroupState :=
  if s.isExpanded.getD j false then
    { s with isExpanded := s.isExpanded.set j false }
  else s

/-- `Accordion.toggle` / `toggleAccordion` on child `i`, run to completion
together with the group's synchronous `accordion-expanded` listener
(`AccordionGroup.setupAccordionListeners`): flipping to expanded
dispatches the event; the group collapses the recorded open accordion if
it is a different one, then records `i`. Flipping to collapsed fires no
event and the group record is untouched. -/
def toggleAccordion (i : Nat) (s : AccGroupState) :
    AccGroupState × List AccEvent :=
  if s.isExpanded.getD i false then
    ({ s with isExpanded := s.isExpanded.set i false }, [])
  else
    let s1 : AccGroupState := { s with isExpanded := s.isExpanded.set i true }
    match s1.currentOpenAccordion with
    | some j =>
        if j = i then
          ({ s1 with currentOpenAccordion := some i }, [AccEvent.accordionExpanded i])
        else
          ({ collapseChild j s1 with currentOpenAccordion := some i },
            [AccEvent.accordionExpanded i, AccEvent.collapseCalled j])
    | none =>
        ({ s1 with currentOpenAccordion := some i }, [AccEvent.accordionExpanded i])

/-- `Accordion.open()`: toggles only when currently collapsed. -/
def openAccordion (i : Nat) (s : AccGroupState) :
    AccGroupState × List AccEvent :=
  if s.isExpanded.getD i false then (s, []) else toggleAccordion i s

/-- `Accordion.close()`: toggles only when currently expanded. -/
def closeAccordion (i : Nat) (s : AccGroupState) :
    AccGroupState × List AccEvent :=
  if s.isExpanded.getD i false then toggleAccordion i s else (s, [])

/-- User-level operations on a grouped accordion. -/
inductive AccOp where
  | toggleOp (i : Nat)
  | openOp (i : Nat)
  | closeOp (i : Nat)

/-- State after one operation runs to completion. -/
def accStep (op : AccOp) (s : AccGroupState) : AccGroupState :=
  match op with
  | .toggleOp i => (toggleAccordion i s).1
  | .openOp i => (openAccordion i s).1
  | .closeOp i => (closeAccordion i s).1

/-- Run a sequence of operations from a starting state. -/
def runAccOps (ops : List AccOp) (s : AccGroupState) : AccGroupState :=
  ops.foldl (fun t op => accStep op t) s

/-- Freshly connected group of `n` accordions: all collapsed,
`currentOpenAccordion = null`. -/
def initAccGroup (n : Nat) : AccGroupState :=
  ⟨List.replicate n false, none⟩

end Accordion

/-- At most one accordion in the group reports `isExpanded = true`. -/
def atMostOneExpanded (s : AccGroupState) : Prop :=
  ∀ i j, s.isExpanded.getD i false = true → s.isExpanded.getD j false = true → i = j

/-- Every expanded accordion is the one recorded by the group. -/
def AccInv (s : AccGroupState) : Prop :=
  ∀ k, s.isExpanded.getD k false = true → s.currentOpenAccordion = some k

/-! ### Tab, TabTrigger and TabGroup
State of one `ac-tab-group`: each child `ac-tab`'s `active` attribute,
and the group's `_activeTab` reference (as an index, `none` for `null`). -/

structure TabGroupState where
  tabs : List Bool
  activeTab : Option Nat
deriving DecidableEq

/-- A JavaScript index value: an integer or `NaN` (as produced by `% 0`). -/
inductive JSNum where
  | num (val : Int)
  | nan
deriving DecidableEq

namespace TabGroup

/-- JS `<` against an integer bound: any comparison with `NaN` is false. -/
def jsLt (a : JSNum) (b : Int) : Bool :=
  match a with
  | .num v => v < b
  | .nan => false

/-- JS `>=` against an integer bound: any comparison with `NaN` is false. -/
def jsGe (a : JSNum) (b : Int) : Bool :=
  match a with
  | .num v => v ≥ b
  | .nan => false

/-- JS remainder `%`: truncated remainder; `x % 0` and `NaN % y` are `NaN`. -/
def jsMod (a n : JSNum) : JSNum :=
  match a, n with
  | .num v, .num m => if m = 0 then .nan else .num (Int.tmod v m)
  | _, _ => .nan

/-- `TabGroup.activeTabIndex` getter:
`this._activeTab ? this.tabs.indexOf(this._activeTab) : -1`. -/
def activeTabIndex (s : TabGroupState) : Int :=
  match s.activeTab with
  | some k => (k : Int)
  | none => -1

/-- `TabGroup.tabCount` getter. -/
def tabCount (s : TabGroupState) : Nat := s.tabs.length

/-- `TabGroup.activateTab(tab)` on a valid tab (index `k`): deactivates the
previous active tab, removes `active` from every tab, then marks tab `k`
active and records it. (`tab.activate()` is then a no-op because the
attribute is already set, so no `tab-activated` event fires.) -/
def activateTab (k : Nat) (s : TabGroupState) : TabGroupState :=
  ⟨(s.tabs.map fun _ => false).set k true, some k⟩

/-- `TabGroup.selectTab(index)`: returns `false` when `index < 0` or
`index >= tabs.length` (both comparisons false for `NaN`, so `NaN` slips
through); otherwise activates `this.tabs[index]` and returns `true`.
`this.tabs[NaN]` is `undefined`, and `activateTab(undefined)` clears every
tab's `active` attribute before throwing a `TypeError` at
`tab.setAttribute`. -/
def selectTab (index : JSNum) (s : TabGroupState) :
    TabGroupState × Except String Bool :=
  if jsLt index 0 || jsGe index (s.tabs.length : Int) then (s, Except.ok false)
  else
    match index with
    | .num v => (activateTab v.toNat s, Except.ok true)
    | .nan =>
        (⟨s.tabs.map fun _ => false, s.activeTab⟩,
          Except.error "TypeError: tab is undefined")

/-- `TabGroup.nextTab()`: `selectTab((currentIndex + 1) % this.tabCount)`. -/
def nextTab (s : TabGroupState) : TabGroupState × Except String Bool :=
  selectTab (jsMod (.num (activeTabIndex s + 1)) (.num (s.tabs.length : Int))) s

/-- `TabGroup.previousTab()`:
`prevIndex = currentIndex - 1 < 0 ? tabCount - 1 : currentIndex - 1`. -/
def previousTab (s : TabGroupState) : TabGroupState × Except String Bool :=
  let currentIndex := activeTabIndex s
  let prevIndex : Int :=
    if currentIndex - 1 < 0 then (s.tabs.length : Int) - 1 else currentIndex - 1
  selectTab (.num prevIndex) s

/-- `TabGroup.initializeTabs` for a group with `n` panels: starts with no
active tab and calls `selectTab(0)` when `tabs.length > 0`. -/
def initTabs (n : Nat) : TabGroupState :=
  let s0 : TabGroupState := ⟨List.replicate n false, none⟩
  if 0 < n then (selectTab (.num 0) s0).1 else s0

/-- User-level navigation operations on a tab group. -/
inductive TabOp where
  | selOp (i : Int)
  | nextOp
  | prevOp

/-- State after one navigation operation (including the partially mutated
state left behind when `activateTab(undefined)` throws). -/
def tabStep (op : TabOp) (s : TabGroupState) : TabGroupState :=
  match op with
  | .selOp i => (selectTab (.num i) s).1
  | .nextOp => (nextTab s).1
  | .prevOp => (previousTab s).1

/-- Run a sequence of navigation operations. -/
def runTabOps (ops : List TabOp) (s : TabGroupState) : TabGroupState :=
  ops.foldl (fun t op => tabStep op t) s

end TabGroup

/-- At most one tab in the group carries the `active` attribute. -/
def atMostOneActive (s : TabGroupState) : Prop :=
  ∀ i j, s.tabs.getD i false = true → s.tabs.getD j false = true → i = j

end AcoreTs

namespace AcoreTs

/-! ## Helper lemmas -/

theorem getD_set_bool (l : List Bool) (i j : Nat) (b : Bool) :
    (l.set i b).getD j false = if i = j ∧ j < l.length then b else l.getD j false := by
  rw [List.getD_eq_getElem?_getD, List.getD_eq_getElem?_getD, List.getElem?_set]
  by_cases hij : i = j
  · subst hij
    by_cases hlen : i < l.length
    · simp [hlen]
    · simp [hlen, List.getElem?_eq_none (Nat.le_of_not_lt hlen)]
  · simp [hij]

theorem getD_replicate_false (n k : Nat) :
    (List.replicate n false).getD k false = false := by
  rw [List.getD_eq_getElem?_getD, List.getElem?_replicate]
  split <;> simp

theorem getD_map_false (l : List Bool) (k : Nat) :
    (l.map fun _ => false).getD k false = false := by
  rw [List.getD_eq_getElem?_getD, List.getElem?_map]
  cases l[k]? <;> simp

theorem getD_true_lt (l : List Bool) (k : Nat) (h : l.getD k false = true) :
    k < l.length := by
  by_contra hk
  rw [List.getD_eq_getElem?_getD, List.getElem?_eq_none (Nat.le_of_not_lt hk)] at h
  simp at h

namespace Accordion

theorem accInv_init (n : Nat) : AccInv (initAccGroup n) := by
  intro k hk
  rw [initAccGroup] at hk
  simp only at hk
  rw [getD_replicate_false] at hk
  exact absurd hk (by simp)

theorem accInv_toggle (i : Nat) (s : AccGroupState) (h : AccInv s) :
    AccInv (toggleAccordion i s).1 := by
  rw [toggleAccordion]
  split
  · -- collapse branch: flag i cleared, record untouched
    intro k hk
    dsimp only at hk ⊢
    rw [getD_set_bool] at hk
    split at hk
    · exact absurd hk (by simp)
    · exact h k hk
  · -- expand branch
    rename_i hexp
    dsimp only
    split
    · -- record was some j
      rename_i j hrec
      split
      · -- j = i: no sibling collapsed
        rename_i hji
        intro k hk
        dsimp only at hk ⊢
        rw [getD_set_bool] at hk
        split at hk
        · rename_i hik
          rw [hik.1]
        · have hrk := h k hk
          rw [hrec] at hrk
          injection hrk with hjk
          rw [hji] at hjk
          rw [hjk]
      · -- j ≠ i: group collapses j, then records i
        rename_i hji
        rw [collapseChild]
        split
        · -- j was (still) expanded: its flag is cleared
          intro k hk
          dsimp only at hk ⊢
          rw [getD_set_bool, List.length_set] at hk
          split at hk
          · exact absurd hk (by simp)
          · rename_i hjk
            rw [getD_set_bool] at hk
            split at hk
            · rename_i hik
              rw [hik.1]
            · have hrk := h k hk
              rw [hrec] at hrk
              injection hrk with hjk2
              have hklen := getD_true_lt _ _ hk
              exact absurd ⟨hjk2, hklen⟩ hjk
        · -- j was not expanded: collapse is a no-op
          rename_i hjexp
          intro k hk
          dsimp only at hk ⊢
          rw [getD_set_bool] at hk
          split at hk
          · rename_i hik
            rw [hik.1]
          · have hrk := h k hk
            rw [hrec] at hrk
            injection hrk with hjk
            subst hjk
            rw [getD_set_bool, if_neg (fun hc => hji hc.1.symm)] at hjexp
            exact absurd hk hjexp
    · -- record was none
      rename_i hrec
      intro k hk
      dsimp only at hk ⊢
      rw [getD_set_bool] at hk
      split at hk
      · rename_i hik
        rw [hik.1]
      · have hrk := h k hk
        rw [hrec] at hrk
        exact absurd hrk (by simp)

theorem accInv_step (op : AccOp) (s : AccGroupState) (h : AccInv s) :
    AccInv (accStep op s) := by
  cases op with
  | toggleOp i => exact accInv_toggle i s h
  | openOp i =>
      show AccInv (openAccordion i s).1
      rw [openAccordion]
      split
      · exact h
      · exact accInv_toggle i s h
  | closeOp i =>
      show AccInv (closeAccordion i s).1
      rw [closeAccordion]
      split
      · exact accInv_toggle i s h
      · exact h

theorem accInv_run (ops : List AccOp) (s : AccGroupState) (h : AccInv s) :
    AccInv (runAccOps ops s) := by
  induction ops generalizing s with
  | nil => exact h
  | cons op rest ih =>
      rw [runAccOps, List.foldl_cons]
      exact ih _ (accInv_step op s h)

end Accordion

theorem accInv_atMostOne (s : AccGroupState) (h : AccInv s) :
    atMostOneExpanded s := by
  intro i j hi hj
  have h1 := h i hi
  have h2 := h j hj
  rw [h1] at h2
  injection h2

end AcoreTs

namespace AcoreTs

namespace TabGroup

theorem tabInv_activateTab (k : Nat) (s : TabGroupState) :
    atMostOneActive (activateTab k s) := by
  intro i j hi hj
  rw [activateTab] at hi hj
  dsimp only at hi hj
  rw [getD_set_bool] at hi hj
  split at hi
  · split at hj
    · rename_i hki hkj
      rw [← hki.1, ← hkj.1]
    · rw [getD_map_false] at hj
      exact absurd hj (by simp)
  · rw [getD_map_false] at hi
    exact absurd hi (by simp)

theorem tabInv_selectTab (idx : JSNum) (s : TabGroupState)
    (h : atMostOneActive s) : atMostOneActive (selectTab idx s).1 := by
  rw [selectTab.eq_def]
  split
  · exact h
  · cases idx with
    | num v => exact tabInv_activateTab v.toNat s
    | nan =>
        intro i j hi hj
        dsimp only at hi
        rw [getD_map_false] at hi
        exact absurd hi (by simp)

theorem tabInv_step (op : TabOp) (s : TabGroupState)
    (h : atMostOneActive s) : atMostOneActive (tabStep op s) := by
  cases op with
  | selOp i => exact tabInv_selectTab (.num i) s h
  | nextOp => exact tabInv_selectTab _ s h
  | prevOp => exact tabInv_selectTab _ s h

theorem tabInv_run (ops : List TabOp) (s : TabGroupState)
    (h : atMostOneActive s) : atMostOneActive (runTabOps ops s) := by
  induction ops generalizing s with
  | nil => exact h
  | cons op rest ih =>
      rw [runTabOps, List.foldl_cons]
      exact ih _ (tabInv_step op s h)

theorem tabInv_initTabs (n : Nat) : atMostOneActive (initTabs n) := by
  have h0 : atMostOneActive ⟨List.replicate n false, none⟩ := by
    intro i j hi hj
    dsimp only at hi
    rw [getD_replicate_false] at hi
    exact absurd hi (by simp)
  rw [initTabs]
  split
  · exact tabInv_selectTab _ _ h0
  · exact h0

end TabGroup

end AcoreTs

namespace AcoreTs
namespace TabGroup

theorem selectTab_valid (v : Int) (s : TabGroupState)
    (h0 : 0 ≤ v) (hv : v < (s.tabs.length : Int)) :
    selectTab (.num v) s = (activateTab v.toNat s, Except.ok true) := by
  rw [selectTab.eq_def]
  rw [if_neg]
  simp only [jsLt, jsGe, Bool.or_eq_true, decide_eq_true_eq, not_or]
  omega

theorem jsMod_self_pos (L : Int) (h : 0 < L) :
    jsMod (.num L) (.num L) = .num 0 := by
  simp only [jsMod]
  rw [if_neg (by omega), Int.tmod_self]

theorem nextTab_wraps (s : TabGroupState) (hs : 1 ≤ s.tabs.length)
    (hsa : s.activeTab = some (s.tabs.length - 1)) :
    nextTab s = (activateTab 0 s, Except.ok true) := by
  have hidx : activeTabIndex s + 1 = (s.tabs.length : Int) := by
    simp only [activeTabIndex, hsa]
    omega
  rw [nextTab, hidx, jsMod_self_pos _ (by omega),
    selectTab_valid 0 s le_rfl (by omega)]
  rfl

theorem previousTab_wraps (t : TabGroupState) (ht : 1 ≤ t.tabs.length)
    (hta : t.activeTab = some 0) :
    previousTab t = (activateTab (t.tabs.length - 1) t, Except.ok true) := by
  have hidx : activeTabIndex t = 0 := by simp only [activeTabIndex, hta]; rfl
  have hprev : previousTab t = selectTab (.num ((t.tabs.length : Int) - 1)) t := by
    rw [previousTab]
    simp only [hidx]
    norm_num
  rw [hprev, selectTab_valid _ t (by omega) (by omega)]
  have htn : ((t.tabs.length : Int) - 1).toNat = t.tabs.length - 1 := by omega
  rw [htn]

end TabGroup
end AcoreTs

namespace AcoreTs

/-- Claim C1: Exclusivity invariant — for any accordion group or tab group, after
any sequence of open/close/toggle (or tab selection) operations run to
completion from the freshly connected state, at most one member reports
`isOpen = true`. -/
theorem exclusivity_invariant (n : Nat)
    (accOps : List Accordion.AccOp) (tabOps : List TabGroup.TabOp) :
    atMostOneExpanded (Accordion.runAccOps accOps (Accordion.initAccGroup n)) ∧
    atMostOneActive (TabGroup.runTabOps tabOps (TabGroup.initTabs n)) :=
  ⟨accInv_atMostOne _ (Accordion.accInv_run accOps _ (Accordion.accInv_init n)),
   TabGroup.tabInv_run tabOps _ (TabGroup.tabInv_initTabs n)⟩

/-- Claim C2 counterexample: at anchor `{x:900,w:100}`, content width 100 and
viewport width 1000, the spec-stated overflow test (`> viewport.width - 8`)
fires and yields 892, but the code's test (`> viewport.width`) does not,
leaving `left = 900`. -/
theorem horizontal_clamp_claim_cx :
    (Dropdown.updatePosition ⟨900, 0, 100, 10⟩ ⟨0, 0, 100, 10⟩ 1000 768).left = 900 ∧
    Dropdown.specLeftMarginTest ⟨900, 0, 100, 10⟩ ⟨0, 0, 100, 10⟩ 1000 = 892 ∧
    (900 : ℚ) ≠ 892 := by
  refine ⟨?_, ?_, by norm_num⟩ <;>
    norm_num [Dropdown.updatePosition, Dropdown.specLeftMarginTest]

/-- Claim C2 (amended): the returned `left` is obtained by centering under the
anchor, then — if `left + content.width > viewport.width` (no margin in
the test) — setting `left = viewport.width - content.width - 8`, finally
clamping at 8. -/
theorem horizontal_clamp :
    ∀ a c : Rect, ∀ vw vh : ℚ,
      (Dropdown.updatePosition a c vw vh).left = Dropdown.specLeftCodeTest a c vw :=
  fun _ _ _ _ => rfl

/-- Claim C3 counterexample: for anchor `{x:0,y:600,w:50,h:53}`, content
`{w:50,h:100}`, viewport `1024x768`, the spec-stated overflow condition
`top + content.height > viewport.height - 8` holds (761 > 760), yet the
code does not flip (761 is not > 768) and returns `top = 661`, not the
492 the claim demands. -/
theorem vertical_flip_claim_cx :
    (600 : ℚ) + 53 + 8 + 100 > 768 - 8 ∧
    (Dropdown.updatePosition ⟨0, 600, 50, 53⟩ ⟨0, 0, 50, 100⟩ 1024 768).top = 661 ∧
    Dropdown.specTopMarginTest ⟨0, 600, 50, 53⟩ ⟨0, 0, 50, 100⟩ 768 = 492 ∧
    (661 : ℚ) ≠ 492 := by
  refine ⟨by norm_num, ?_, ?_, by norm_num⟩ <;>
    norm_num [Dropdown.updatePosition, Dropdown.specTopMarginTest]

/-- Claim C3 (amended): the vertical rule with the overflow test the code runs
(`top + content.height > viewport.height`, no margin in the test): flip
above iff `aboveTop > 0`, else pin to `viewport.height - content.height -
8`; and Scenario A (viewport `1024x768`, anchor `{x:500,y:700,w:100,h:30}`,
content `{w:200,h:100}`) returns `top = 592`. -/
theorem vertical_flip :
    (∀ a c : Rect, ∀ vw vh : ℚ,
      (Dropdown.updatePosition a c vw vh).top = Dropdown.specTopCodeTest a c vh) ∧
    (Dropdown.updatePosition ⟨500, 700, 100, 30⟩ ⟨0, 0, 200, 100⟩ 1024 768).top = 592 := by
  refine ⟨fun a c vw vh => rfl, ?_⟩
  norm_num [Dropdown.updatePosition]

/-- Claim C4 counterexample: anchor `{x:0,y:900,w:100,h:30}` lies below the
`1024x768` viewport; with content `{w:100,h:50}` the flip-above branch
returns `top = 842`, so `top + content.height = 892 > 768` although the
content height 50 does not exceed the viewport height. -/
theorem placement_top_bound_cx :
    (Dropdown.updatePosition ⟨0, 900, 100, 30⟩ ⟨0, 0, 100, 50⟩ 1024 768).top + 50 > 768 ∧
    (50 : ℚ) ≤ 768 := by
  refine ⟨?_, by norm_num⟩
  norm_num [Dropdown.updatePosition]

/-- Claim C4 (amended): for every anchor/content/viewport triple, the
returned `left` is at least the margin 8 and the returned `maxWidth`
equals `viewport.width - 2*8`; and whenever the anchor's top edge is not
below `viewport.height + 8`, the returned `top + content.height` does not
exceed `viewport.height`. -/
theorem placement_clamping (a c : Rect) (vw vh : ℚ) :
    8 ≤ (Dropdown.updatePosition a c vw vh).left ∧
    (Dropdown.updatePosition a c vw vh).maxWidth = vw - 2 * 8 ∧
    (a.y ≤ vh + 8 → (Dropdown.updatePosition a c vw vh).top + c.height ≤ vh) := by
  refine ⟨?_, by rw [Dropdown.updatePosition]; norm_num, fun h => ?_⟩ <;>
    rw [Dropdown.updatePosition] <;> dsimp only <;> split_ifs <;> linarith

/-- Witness for C4 at anchor `{0,0,10,10}`, content `{0,0,10,10}`,
viewport `1024x768`, discharging the top-bound hypothesis `0 ≤ 768 + 8`. -/
theorem placement_clamping_witness :
    8 ≤ (Dropdown.updatePosition ⟨0, 0, 10, 10⟩ ⟨0, 0, 10, 10⟩ 1024 768).left ∧
    (Dropdown.updatePosition ⟨0, 0, 10, 10⟩ ⟨0, 0, 10, 10⟩ 1024 768).maxWidth = 1024 - 2 * 8 ∧
    (Dropdown.updatePosition ⟨0, 0, 10, 10⟩ ⟨0, 0, 10, 10⟩ 1024 768).top +
      (⟨0, 0, 10, 10⟩ : Rect).height ≤ 768 :=
  ⟨(placement_clamping ⟨0, 0, 10, 10⟩ ⟨0, 0, 10, 10⟩ 1024 768).1,
   (placement_clamping ⟨0, 0, 10, 10⟩ ⟨0, 0, 10, 10⟩ 1024 768).2.1,
   (placement_clamping ⟨0, 0, 10, 10⟩ ⟨0, 0, 10, 10⟩ 1024 768).2.2 (by norm_num)⟩

/-- Claim C5: the dropdown focus cursor clamps (ArrowDown on the last menu item
and ArrowUp on the first are no-ops), while tab selection wraps:
`nextTab()` at the last index selects 0 and `previousTab()` at 0 selects
`count - 1`, both returning true. -/
theorem clamp_vs_wraparound (n : Nat) (s t : TabGroupState)
    (hs : 1 ≤ s.tabs.length) (hsa : s.activeTab = some (s.tabs.length - 1))
    (ht : 1 ≤ t.tabs.length) (hta : t.activeTab = some 0) :
    Dropdown.handleContentKeydown .arrowDown n ((n : Int) - 1) = [] ∧
    Dropdown.handleContentKeydown .arrowUp n 0 = [] ∧
    (TabGroup.nextTab s).1.activeTab = some 0 ∧
    (TabGroup.nextTab s).2 = Except.ok true ∧
    (TabGroup.previousTab t).1.activeTab = some (t.tabs.length - 1) ∧
    (TabGroup.previousTab t).2 = Except.ok true := by
  rw [TabGroup.nextTab_wraps s hs hsa, TabGroup.previousTab_wraps t ht hta]
  refine ⟨?_, ?_, rfl, rfl, rfl, rfl⟩
  · simp [Dropdown.handleContentKeydown]
  · simp [Dropdown.handleContentKeydown]

/-- Witness for C5: two tabs, active tab 1 for `nextTab`, active tab 0 for
`previousTab`, three menu items. -/
theorem clamp_vs_wraparound_witness :
    Dropdown.handleContentKeydown .arrowDown 3 ((3 : Int) - 1) = [] ∧
    Dropdown.handleContentKeydown .arrowUp 3 0 = [] ∧
    (TabGroup.nextTab ⟨[false, true], some 1⟩).1.activeTab = some 0 ∧
    (TabGroup.nextTab ⟨[false, true], some 1⟩).2 = Except.ok true ∧
    (TabGroup.previousTab ⟨[true, false], some 0⟩).1.activeTab = some 1 ∧
    (TabGroup.previousTab ⟨[true, false], some 0⟩).2 = Except.ok true :=
  clamp_vs_wraparound 3 ⟨[false, true], some 1⟩ ⟨[true, false], some 0⟩
    (by norm_num) rfl (by norm_num) rfl

/-- Claim C6: evaluating the code at the failing input — `nextTab()` on a group
with zero tabs computes `(−1 + 1) % 0 = NaN`, which passes both guards of
`selectTab`, so `activateTab(this.tabs[NaN])` throws a `TypeError` instead
of returning false; `previousTab()` on the same group does return false. -/
theorem nextTab_empty_throws :
    (TabGroup.nextTab ⟨[], none⟩).2 = Except.error "TypeError: tab is undefined" ∧
    (TabGroup.nextTab ⟨[], none⟩).1 = ⟨[], none⟩ ∧
    (TabGroup.previousTab ⟨[], none⟩).2 = Except.ok false :=
  ⟨rfl, rfl, rfl⟩

/-- Claim C7 counterexample: a document click whose composed path misses the
widget runs `hideMenu`, which unconditionally calls `trigger.focus()` —
focus IS forced back to the trigger, contradicting the claim. -/
theorem outside_click_focus_cx :
    Dropdown.Effect.focusTrigger ∈ Dropdown.handleDocumentClick false := by
  simp [Dropdown.handleDocumentClick, Dropdown.hideMenu]

/-- Claim C7 (amended): an outside click on an open dropdown hides the content
AND returns focus to the trigger (every `hideMenu` path focuses the
trigger); a click whose path includes the widget does nothing. -/
theorem outside_click_closes :
    Dropdown.handleDocumentClick false =
      [Dropdown.Effect.hideContent, Dropdown.Effect.focusTrigger] ∧
    Dropdown.handleDocumentClick true = [] :=
  ⟨rfl, rfl⟩

/-- Claim C8 counterexample: toggle accordion 0 open then closed in a two-member
group — the member is now collapsed but `currentOpenAccordion` still
records it: no close notification clears the record. -/
theorem close_record_cx :
    (Accordion.runAccOps [.toggleOp 0, .toggleOp 0]
      (Accordion.initAccGroup 2)).isExpanded.getD 0 false = false ∧
    (Accordion.runAccOps [.toggleOp 0, .toggleOp 0]
      (Accordion.initAccGroup 2)).currentOpenAccordion = some 0 :=
  ⟨rfl, rfl⟩

/-- Claim C8 (amended): closing a member sends no notification to the group:
`currentOpenAccordion` is unchanged by any close (so it may keep pointing
at a collapsed member); the record is updated only when a member expands. -/
theorem close_keeps_record (s : AccGroupState) (i : Nat)
    (h : s.isExpanded.getD i false = true) :
    (Accordion.toggleAccordion i s).1.currentOpenAccordion = s.currentOpenAccordion ∧
    (Accordion.closeAccordion i s).1.currentOpenAccordion = s.currentOpenAccordion ∧
    (Accordion.toggleAccordion i s).1.isExpanded.getD i false = false := by
  have htog : Accordion.toggleAccordion i s =
      ({ s with isExpanded := s.isExpanded.set i false }, []) := by
    rw [Accordion.toggleAccordion, if_pos h]
  have hcl : Accordion.closeAccordion i s = Accordion.toggleAccordion i s := by
    rw [Accordion.closeAccordion, if_pos h]
  refine ⟨by rw [htog], by rw [hcl, htog], ?_⟩
  rw [htog]
  dsimp only
  rw [getD_set_bool, if_pos ⟨rfl, getD_true_lt _ _ h⟩]

/-- Witness for C8: a one-member group with its member open. -/
theorem close_keeps_record_witness :
    (Accordion.toggleAccordion 0 ⟨[true], some 0⟩).1.currentOpenAccordion =
      (⟨[true], some 0⟩ : AccGroupState).currentOpenAccordion ∧
    (Accordion.closeAccordion 0 ⟨[true], some 0⟩).1.currentOpenAccordion =
      (⟨[true], some 0⟩ : AccGroupState).currentOpenAccordion ∧
    (Accordion.toggleAccordion 0 ⟨[true], some 0⟩).1.isExpanded.getD 0 false = false :=
  close_keeps_record ⟨[true], some 0⟩ 0 rfl

/-- Claim C9: `open(m)` on an already-open member is a no-op — the state is
unchanged and no event fires, so no sibling receives `collapse()` and no
`accordion-expanded` event is re-dispatched. -/
theorem open_idempotent (s : AccGroupState) (i : Nat)
    (h : s.isExpanded.getD i false = true) :
    Accordion.openAccordion i s = (s, []) := by
  rw [Accordion.openAccordion, if_pos h]

/-- Witness for C9: opening the already-open member 1 of a two-member
group. -/
theorem open_idempotent_witness :
    Accordion.openAccordion 1 ⟨[false, true], some 1⟩ =
      (⟨[false, true], some 1⟩, []) :=
  open_idempotent ⟨[false, true], some 1⟩ 1 rfl

/-- Claim C10: a connected tab group with `n ≥ 1` panels selects tab 0 during
initialization (`activeTabIndex = 0`, first panel active); a group with
zero panels keeps `activeTabIndex = -1`. -/
theorem initial_tab_selection (n : Nat) (h : 1 ≤ n) :
    TabGroup.activeTabIndex (TabGroup.initTabs n) = 0 ∧
    (TabGroup.initTabs n).tabs.getD 0 false = true ∧
    TabGroup.activeTabIndex (TabGroup.initTabs 0) = -1 := by
  have hinit : TabGroup.initTabs n =
      TabGroup.activateTab 0 ⟨List.replicate n false, none⟩ := by
    rw [TabGroup.initTabs]
    rw [if_pos (by omega)]
    rw [TabGroup.selectTab_valid 0 _ le_rfl (by simp; omega)]
    rfl
  refine ⟨?_, ?_, rfl⟩
  · rw [hinit]; rfl
  · rw [hinit, TabGroup.activateTab]
    dsimp only
    rw [getD_set_bool, if_pos ⟨rfl, by simp; omega⟩]

/-- Witness for C10 with three panels. -/
theorem initial_tab_selection_witness :
    TabGroup.activeTabIndex (TabGroup.initTabs 3) = 0 ∧
    (TabGroup.initTabs 3).tabs.getD 0 false = true ∧
    TabGroup.activeTabIndex (TabGroup.initTabs 0) = -1 :=
  initial_tab_selection 3 (by norm_num)

end AcoreTs
